import Mathlib

/-!
Verification development for the NFS-e retrieval and distribution layer:
a shallow embedding of the two protocol clients (national REST distribution
client `nfseNacional.ts`, municipal SOAP client `nfseRecife.ts`), the
certificate configuration state machine, and the batch archive builder
(`routes.ts`), together with theorems settling the specification claims.

JavaScript-specific semantics (string falsiness for `||`, `parseFloat`
returning NaN, `replace` with regexes, optional chaining) are modelled
explicitly.  Machine floats are modelled by `JsNumber` (NaN or an exact
rational), which is faithful for the decimal strings these documents carry.
-/

namespace G7

/-- A JavaScript number as produced by `parseFloat`: either NaN or an exact
decimal value (rationals are exact for the decimal notations involved). -/
inductive JsNumber where
  | nan : JsNumber
  | val : Rat → JsNumber
deriving DecidableEq

/-- Model of the JS expression `a || b` on strings: the empty string is
falsy, any other string is truthy. -/
def jsOr (a b : String) : String :=
  if a = "" then b else a

/-- Model of the JS expression `o || d` where `o` may be `undefined`
(`Option.none`) or a string: both `undefined` and `""` fall through to `d`. -/
def jsDefault (o : Option String) (d : String) : String :=
  match o with
  | none => d
  | some s => if s = "" then d else s

/-- ASCII lower-casing of one character (the case folding the regex `i`
flag performs on the ASCII tag names involved). -/
def lowerChar (c : Char) : Char :=
  if 'A' ≤ c ∧ c ≤ 'Z' then Char.ofNat (c.toNat + 32) else c

/-- ASCII lower-casing of a string. -/
def lowerStr (s : String) : String :=
  String.mk (s.data.map lowerChar)

/-- Model of `s.replace(/\D/g, "")`: keep only ASCII decimal digits. -/
def stripNonDigits (s : String) : String :=
  String.mk (s.data.filter Char.isDigit)

/-- Value of a digit list read in base 10 (most significant first). -/
def digitsToNat (ds : List Char) : Nat :=
  ds.foldl (fun acc c => acc * 10 + (c.toNat - 48)) 0

/-- Whitespace skipped by `parseFloat` before the number proper. -/
def isJsSpace (c : Char) : Bool :=
  c = ' ' || c = '\t' || c = '\n' || c = '\r'

/-- Model of JavaScript `parseFloat`: skip leading whitespace, read an
optional sign, integer digits, an optional fraction and an optional
exponent; if no digits are found the result is NaN.  (The special literal
"Infinity" is not modelled; the fiscal documents never carry it.) -/
def jsParseFloat (s : String) : JsNumber :=
  let cs0 := s.data.dropWhile isJsSpace
  let signAndRest :=
    match cs0 with
    | '-' :: rest => ((-1 : Int), rest)
    | '+' :: rest => ((1 : Int), rest)
    | _ => ((1 : Int), cs0)
  let sgn := signAndRest.1
  let cs := signAndRest.2
  let intDigits := cs.takeWhile Char.isDigit
  let cs2 := cs.dropWhile Char.isDigit
  let fracAndRest :=
    match cs2 with
    | '.' :: rest => (rest.takeWhile Char.isDigit, rest.dropWhile Char.isDigit)
    | _ => (([] : List Char), cs2)
  let fracDigits := fracAndRest.1
  let cs3 := fracAndRest.2
  if intDigits.isEmpty && fracDigits.isEmpty then JsNumber.nan
  else
    let expVal : Int :=
      match cs3 with
      | c :: rest =>
        if c = 'e' || c = 'E' then
          let esignAndRest :=
            match rest with
            | '-' :: r => ((-1 : Int), r)
            | '+' :: r => ((1 : Int), r)
            | _ => ((1 : Int), rest)
          let eDigits := esignAndRest.2.takeWhile Char.isDigit
          if eDigits.isEmpty then 0 else esignAndRest.1 * (digitsToNat eDigits : Int)
        else 0
      | [] => 0
    let num : Int := sgn * ((digitsToNat intDigits * 10 ^ fracDigits.length + digitsToNat fracDigits : Nat) : Int)
    let den : Nat := 10 ^ fracDigits.length
    if 0 ≤ expVal then JsNumber.val (mkRat (num * 10 ^ expVal.toNat) den)
    else JsNumber.val (mkRat num (den * 10 ^ (-expVal).toNat))

/-- Two-digit zero padding for date components. -/
def pad2 (n : Int) : String :=
  if n < 10 then "0" ++ toString n else toString n

/-- Four-digit zero padding for years. -/
def pad4 (n : Int) : String :=
  if n < 10 then "000" ++ toString n
  else if n < 100 then "00" ++ toString n
  else if n < 1000 then "0" ++ toString n
  else toString n

/-- Convert a count of days since the Unix epoch to a civil (year, month,
day) triple; this is the standard days-from-civil inverse used by JS `Date`
at day granularity. -/
def civilFromDays (z0 : Int) : Int × Int × Int :=
  let z := z0 + 719468
  let era := Int.fdiv z 146097
  let doe := z - era * 146097
  let yoe := Int.fdiv (doe - Int.fdiv doe 1460 + Int.fdiv doe 36524 - Int.fdiv doe 146096) 365
  let y := yoe + era * 400
  let doy := doe - (365 * yoe + Int.fdiv yoe 4 - Int.fdiv yoe 100)
  let mp := Int.fdiv (5 * doy + 2) 153
  let d := doy - Int.fdiv (153 * mp + 2) 5 + 1
  let m := mp + (if mp < 10 then 3 else -9)
  (y + (if m ≤ 2 then 1 else 0), m, d)

/-- Model of `date.toISOString().split("T")[0]`: the `YYYY-MM-DD` rendering
of a JS `Date`, where dates are carried as whole days since the epoch. -/
def isoDateString (day : Int) : String :=
  let c := civilFromDays day
  pad4 c.1 ++ "-" ++ pad2 c.2.1 ++ "-" ++ pad2 c.2.2

namespace Nacional

/-!
Shallow embedding of `server/nfseNacional.ts` (NfseNacionalService).
An XML document is modelled at the granularity `parseNfseXml` reads it:
a list of (tag name, text content) pairs, since the regex
`<tag[^>]*>([^<]*)</tag>` with the `i` flag is a case-insensitive
first-match lookup of a tag's text content.
-/

/-- An XML payload as seen by the tag extractor: tag name / text pairs in
document order. -/
abbrev XmlDoc := List (String × String)

/-- Model of the local `extractTag` closure in `parseNfseXml`: the text of
the first tag whose name matches case-insensitively, or `""` when the tag
is absent. -/
def extractTag (xml : XmlDoc) (tagName : String) : String :=
  match xml.find? (fun p => lowerStr p.1 == lowerStr tagName) with
  | some p => p.2
  | none => ""

/-- The canonical record produced by the national client
(`NfseNacionalResult` in the source). -/
structure NfseNacionalResult where
  chaveAcesso : String
  numero : String
  dataEmissao : String
  competencia : String
  valor : JsNumber
  cnpjPrestador : String
  razaoSocialPrestador : String
  cnpjTomador : String
  razaoSocialTomador : String
  descricaoServico : String
  municipio : String
  xml : XmlDoc
deriving DecidableEq

/-- Model of `parseNfseXml`: tolerant tag-by-tag extraction with the same
fallback chains as the source; note `cnpjTomador` and `razaoSocialTomador`
are the literal empty string in the source. -/
def parseNfseXml (xml : XmlDoc) (chaveAcesso : String) : NfseNacionalResult :=
  { chaveAcesso := chaveAcesso
    numero := jsOr (extractTag xml "nNFSe") (jsOr (extractTag xml "NumeroNfse") "")
    dataEmissao := jsOr (extractTag xml "dhEmi") (jsOr (extractTag xml "DataEmissao") "")
    competencia := extractTag xml "cLocEmi"
    valor := jsParseFloat (jsOr (extractTag xml "vLiq") (jsOr (extractTag xml "ValorServicos") "0"))
    cnpjPrestador := jsOr (extractTag xml "CNPJ") ""
    razaoSocialPrestador := jsOr (extractTag xml "xNome") (jsOr (extractTag xml "RazaoSocial") "")
    cnpjTomador := ""
    razaoSocialTomador := ""
    descricaoServico := jsOr (extractTag xml "xServ") (jsOr (extractTag xml "Discriminacao") "")
    municipio := extractTag xml "cMunFG"
    xml := xml }

/-- A `docZipB64` payload: either a well-formed base64-encoded gzip of an
XML document, or bytes on which `Buffer.from` / `gunzipSync` throws.  The
pair (gzip, base64-encode) is injective with `decodeDocZip` as its partial
inverse, which is all `parseDistribuicaoResponse` relies on. -/
inductive EncodedPayload where
  | encoded : XmlDoc → EncodedPayload
  | corrupt : EncodedPayload
deriving DecidableEq

/-- One entry of the distribution response's `docZip` array. -/
structure NacDoc where
  docZipB64 : EncodedPayload
  chNFSe : Option String
deriving DecidableEq

/-- The JSON body of a distribution response; `docZip` may be absent. -/
structure DistribResponse where
  docZip : Option (List NacDoc)
deriving DecidableEq

/-- Base64-decode plus gunzip: succeeds exactly on well-formed payloads. -/
def decodeDocZip : EncodedPayload → Option XmlDoc
  | .encoded xml => some xml
  | .corrupt => none

/-- Model of `parseDistribuicaoResponse`: a missing `docZip` yields no
records; each document is decoded and parsed, and a document whose
decoding throws is skipped (the error is logged and swallowed). -/
def parseDistribuicaoResponse (response : DistribResponse) : List NfseNacionalResult :=
  match response.docZip with
  | none => []
  | some docs =>
    docs.filterMap (fun doc =>
      (decodeDocZip doc.docZipB64).map (fun xml => parseNfseXml xml (jsDefault doc.chNFSe "")))

/-- The body of an HTTP response as `makeRequest` sees it: either it
JSON-parses to a distribution response or `JSON.parse` throws. -/
inductive HttpBody where
  | parseable : DistribResponse → HttpBody
  | unparseable : HttpBody
deriving DecidableEq

/-- Model of the response handling inside `makeRequest` (non-binary path):
2xx bodies resolve, with an unparseable body silently coerced to the empty
object `{}` (whose `docZip` is absent); any other status rejects with an
error. -/
def handleDistribBody (statusCode : Nat) (body : HttpBody) : Except String DistribResponse :=
  if 200 ≤ statusCode ∧ statusCode < 300 then
    match body with
    | .parseable r => Except.ok r
    | .unparseable => Except.ok { docZip := none }
  else
    Except.error ("HTTP " ++ toString statusCode)

/-- Model of `new Date(a) >= new Date(b)` style comparisons on the ISO-8601
strings these documents carry, on which JS `Date` order coincides with
lexicographic string order. -/
def emRange (dataInicio dataFim d : String) : Bool :=
  decide (dataInicio ≤ d) && decide (d ≤ dataFim)

/-- The `response` of the `i`-th call to `distribuicaoDFe` against the
mocked endpoint: the `i`-th element of the finite page sequence, parsed; a
call past the end behaves as an empty response. -/
def fetchPage (pages : List DistribResponse) (i : Nat) : List NfseNacionalResult :=
  parseDistribuicaoResponse (pages.getD i { docZip := none })

/-- The pagination loop of `consultarNfsesPorPeriodo`, one recursive call
per `while` iteration.  The mocked distribution endpoint is the finite
sequence `pages` of responses, served in call order; the cursor `ultNsu`
is threaded exactly as in the source (the last record's access key cut to
15 characters).  `fuel` bounds the number of iterations; `none` means the
fuel ran out before the loop stopped. -/
def loopPaginas (pages : List DistribResponse) (dataInicio dataFim : String) :
    Nat → Nat → String → List NfseNacionalResult → Option (List NfseNacionalResult)
  | 0, _, _, _ => none
  | Nat.succ fuel, i, _ultNsu, notas =>
    if (fetchPage pages i).length = 0 then
      some notas
    else
      if (fetchPage pages i).length < 50 then
        some (notas ++ (fetchPage pages i).filter
          (fun nota => emRange dataInicio dataFim nota.dataEmissao))
      else
        loopPaginas pages dataInicio dataFim fuel (i + 1)
          ((((fetchPage pages i).getLast?.map NfseNacionalResult.chaveAcesso).getD "").take 15)
          (notas ++ (fetchPage pages i).filter
            (fun nota => emRange dataInicio dataFim nota.dataEmissao))

/-- Model of `consultarNfsesPorPeriodo`: run the pagination loop from the
sentinel cursor `"0"` with enough fuel for every page plus one final call. -/
def consultarNfsesPorPeriodo (pages : List DistribResponse)
    (_cnpjPrestador dataInicio dataFim : String) : Option (List NfseNacionalResult) :=
  loopPaginas pages dataInicio dataFim (pages.length + 1) 0 "0" []

/-- The customer filter of `consultarNfsesPorTomador`: digits-only
comparison of the stored and queried customer tax IDs. -/
def matchTomador (nota : NfseNacionalResult) (cnpjTomador : String) : Bool :=
  stripNonDigits nota.cnpjTomador == stripNonDigits cnpjTomador

/-- Model of `consultarNfsesPorTomador`: default the period to the
trailing 30 days of the clock value `hoje` (days since epoch), delegate to
`consultarNfsesPorPeriodo`, and filter by customer tax ID. -/
def consultarNfsesPorTomador (pages : List DistribResponse)
    (cnpjPrestador cnpjTomador : String) (dataInicio dataFim : Option String)
    (hoje : Int) : Option (List NfseNacionalResult) :=
  let inicio := jsDefault dataInicio (isoDateString (hoje - 30))
  let fim := jsDefault dataFim (isoDateString hoje)
  (consultarNfsesPorPeriodo pages cnpjPrestador inicio fim).map
    (List.filter (fun nota => matchTomador nota cnpjTomador))

end Nacional

/-!
Shallow embedding of the node-forge PKCS#12 pipeline shared by
`configurarCertificado` (national) and `configurarCertificadoBuffer`
(municipal).  A PFX buffer is modelled by what the forge calls observe of
it: whether `asn1.fromDer` accepts it, the password that unlocks it, and
the certificate / key bags it contains (each bag either absent/empty, or
present with a possibly-missing `cert` / `key` field).
-/

/-- A leaf certificate as forge exposes it. -/
structure ForgeCert where
  pem : String
  subjectCN : Option String
  notAfter : String
deriving DecidableEq

/-- A private key as forge exposes it. -/
structure ForgeKey where
  pem : String
deriving DecidableEq

/-- The bags of a parsed PKCS#12 container.  The outer `Option` is
`certBag && certBag[0]` (bag present with a first entry); the inner
`Option` is that entry's `cert` / `key` field. -/
structure P12Bags where
  certEntry : Option (Option ForgeCert)
  keyEntry : Option (Option ForgeKey)
deriving DecidableEq

/-- A PFX buffer, described by how the forge parsing pipeline reacts to
it: `derValid` is whether `asn1.fromDer` succeeds, `password` is the
secret `pkcs12FromAsn1` requires, `bags` is the parsed content. -/
structure PfxBuffer where
  derValid : Bool
  password : String
  bags : P12Bags
deriving DecidableEq

/-- A mutual-TLS `https.Agent` built from PEM material. -/
structure HttpsAgent where
  cert : String
  key : String
deriving DecidableEq

/-- Model of `forge.pki.certificateToPem`. -/
def certificateToPem (c : ForgeCert) : String := c.pem

/-- Model of `forge.pki.privateKeyToPem`. -/
def privateKeyToPem (k : ForgeKey) : String := k.pem

/-- Both bags are present with their certificate / key fields set: the
only situation in which certificate configuration succeeds. -/
def bagsOk (b : P12Bags) : Bool :=
  match b.certEntry, b.keyEntry with
  | some (some _), some (some _) => true
  | _, _ => false

namespace Nacional

/-- The mutable private state of `NfseNacionalService`. -/
structure NacState where
  certPem : Option String
  keyPem : Option String
  httpsAgent : Option HttpsAgent
deriving DecidableEq

/-- Model of `configurarCertificado`: each forge step that throws in the
source is an early `(false, unchanged state)` exit here (the `catch`
swallows the exception and returns `false`); on success the PEMs and agent
are all replaced. -/
def configurarCertificado (st : NacState) (pfx : PfxBuffer) (senha : String) :
    Bool × NacState :=
  if pfx.derValid then
    if senha = pfx.password then
      match pfx.bags.certEntry, pfx.bags.keyEntry with
      | some certEntry, some keyEntry =>
        match certEntry, keyEntry with
        | some cert, some key =>
          let certPem := certificateToPem cert
          let keyPem := privateKeyToPem key
          (true, { certPem := some certPem, keyPem := some keyPem,
                   httpsAgent := some { cert := certPem, key := keyPem } })
        | _, _ => (false, st)
      | _, _ => (false, st)
    else (false, st)
  else (false, st)

/-- Model of `isCertificadoConfigurado`. -/
def isCertificadoConfigurado (st : NacState) : Bool :=
  st.httpsAgent.isSome

end Nacional

namespace Recife

/-!
Shallow embedding of `server/nfseRecife.ts` (NfseRecifeService): the SOAP
response shape as `xml2js` delivers it, the result parser, and the query
operations.  Fields that may be a single node or an array in `xml2js`
output are modelled by a two-constructor sum; optional chaining is
`Option.bind`.
-/

/-- The mutable private state of `NfseRecifeService`. -/
structure RecifeState where
  certificado : Option (PfxBuffer × String)
  httpsAgent : Option HttpsAgent
deriving DecidableEq

/-- Model of `configurarCertificadoBuffer`: same forge pipeline as the
national service; on success it additionally retains the raw buffer and
secret. -/
def configurarCertificadoBuffer (st : RecifeState) (pfx : PfxBuffer) (senha : String) :
    Bool × RecifeState :=
  if pfx.derValid then
    if senha = pfx.password then
      match pfx.bags.certEntry, pfx.bags.keyEntry with
      | some certEntry, some keyEntry =>
        match certEntry, keyEntry with
        | some cert, some key =>
          let certPem := certificateToPem cert
          let keyPem := privateKeyToPem key
          (true, { certificado := some (pfx, senha),
                   httpsAgent := some { cert := certPem, key := keyPem } })
        | _, _ => (false, st)
      | _, _ => (false, st)
    else (false, st)
  else (false, st)

/-- Model of `isCertificadoConfigurado`. -/
def isCertificadoConfigurado (st : RecifeState) : Bool :=
  st.httpsAgent.isSome

/-- One `MensagemRetorno` node. -/
structure MensagemRetorno where
  codigo : String
  mensagem : String
deriving DecidableEq

/-- The `MensagemRetorno` field of a `ListaMensagemRetorno` node: an
array, a single node, or absent (`undefined`). -/
inductive MsgField where
  | arr : List MensagemRetorno → MsgField
  | single : MensagemRetorno → MsgField
  | absent : MsgField
deriving DecidableEq

/-- A `ListaMensagemRetorno` node. -/
structure ListaMensagemRetorno where
  mensagemRetorno : MsgField
deriving DecidableEq

/-- The `Servico.Valores` node. -/
structure Valores where
  valorServicos : Option String
deriving DecidableEq

/-- The `Servico` node. -/
structure Servico where
  valores : Option Valores
  discriminacao : Option String
deriving DecidableEq

/-- The `IdentificacaoTomador.CpfCnpj` node. -/
structure CpfCnpj where
  cnpj : Option String
deriving DecidableEq

/-- The `TomadorServico.IdentificacaoTomador` node. -/
structure IdentificacaoTomador where
  cpfCnpj : Option CpfCnpj
deriving DecidableEq

/-- The `TomadorServico` node. -/
structure TomadorServico where
  identificacaoTomador : Option IdentificacaoTomador
  razaoSocial : Option String
deriving DecidableEq

/-- The `PrestadorServico.IdentificacaoPrestador` node. -/
structure IdentificacaoPrestador where
  inscricaoMunicipal : Option String
deriving DecidableEq

/-- The `PrestadorServico` node. -/
structure PrestadorServico where
  identificacaoPrestador : Option IdentificacaoPrestador
deriving DecidableEq

/-- The `Nfse.InfNfse` node of one invoice component. -/
structure InfNfse where
  numero : String
  dataEmissao : String
  codigoVerificacao : Option String
  servico : Option Servico
  tomadorServico : Option TomadorServico
  prestadorServico : Option PrestadorServico
deriving DecidableEq

/-- One `CompNfse` component; `nfse` models the chain `Nfse?.InfNfse`. -/
structure CompNfse where
  nfse : Option InfNfse
deriving DecidableEq

/-- The `CompNfse` field of `ListaNfse`: array or single node. -/
inductive CompNfseField where
  | arr : List CompNfse → CompNfseField
  | single : CompNfse → CompNfseField
deriving DecidableEq

/-- The `ListaNfse` node; its `CompNfse` field may be absent. -/
structure ListaNfse where
  compNfse : Option CompNfseField
deriving DecidableEq

/-- The `ConsultarNfseResposta` node. -/
structure ConsultarNfseResposta where
  listaMensagemRetorno : Option ListaMensagemRetorno
  listaNfse : Option ListaNfse
deriving DecidableEq

/-- The SOAP result object handed to `parseResultadoConsulta`; the two JS
falsiness checks (`!result`, `!result.ConsultarNfseResposta`) collapse
into one `Option`. -/
structure SoapResult where
  consultarNfseResposta : Option ConsultarNfseResposta
deriving DecidableEq

/-- The canonical record produced by the municipal client (`NfseResult`
in the source). -/
structure NfseResult where
  numero : String
  dataEmissao : String
  valor : JsNumber
  cnpjTomador : String
  razaoSocialTomador : String
  descricaoServico : String
  codigoVerificacao : String
  linkPdf : String
deriving DecidableEq

/-- Model of `getLinkVisualizacao`: pure URL formatting. -/
def getLinkVisualizacao (numeroNfse codigoVerificacao inscricaoMunicipal : String) : String :=
  "https://nfse.recife.pe.gov.br/nfse.aspx?nfse=" ++ numeroNfse ++
    "&cv=" ++ codigoVerificacao ++ "&im=" ++ inscricaoMunicipal

/-- Stringify an interpolated JS value that may be `undefined`: a JS
template literal renders `undefined` as the text "undefined". -/
def jsInterp (o : Option String) : String :=
  match o with
  | none => "undefined"
  | some s => s

/-- The record built for one invoice component inside
`parseResultadoConsulta`, field by field as in the source. -/
def toNfseResult (nfse : InfNfse) : NfseResult :=
  { numero := nfse.numero
    dataEmissao := nfse.dataEmissao
    valor := jsParseFloat (jsDefault ((nfse.servico.bind Servico.valores).bind Valores.valorServicos) "0")
    cnpjTomador := jsDefault (((nfse.tomadorServico.bind TomadorServico.identificacaoTomador).bind
      IdentificacaoTomador.cpfCnpj).bind CpfCnpj.cnpj) ""
    razaoSocialTomador := jsDefault (nfse.tomadorServico.bind TomadorServico.razaoSocial) ""
    descricaoServico := jsDefault (nfse.servico.bind Servico.discriminacao) ""
    codigoVerificacao := jsDefault nfse.codigoVerificacao ""
    linkPdf := getLinkVisualizacao nfse.numero (jsInterp nfse.codigoVerificacao)
      (jsDefault ((nfse.prestadorServico.bind PrestadorServico.identificacaoPrestador).bind
        IdentificacaoPrestador.inscricaoMunicipal) "") }

/-- The warnings `console.warn` emits for a return-message field: one per
element of an array, one for a truthy single node, none otherwise. -/
def warnMensagens : MsgField → List String
  | .arr ms => ms.map (fun m => "Erro " ++ m.codigo ++ ": " ++ m.mensagem)
  | .single m => ["Erro " ++ m.codigo ++ ": " ++ m.mensagem]
  | .absent => []

/-- Number of return messages carried by a message field. -/
def msgCount : MsgField → Nat
  | .arr ms => ms.length
  | .single _ => 1
  | .absent => 0

/-- Normalize the array-or-single `CompNfse` field as the source does with
`Array.isArray`. -/
def compNfseToList : CompNfseField → List CompNfse
  | .arr l => l
  | .single c => [c]

/-- Model of `parseResultadoConsulta`: returns the records together with
the list of warnings logged.  A present `ListaMensagemRetorno` short-circuits
to zero records plus one warning per message; otherwise invoice components
are mapped field by field, skipping components without an `InfNfse` node.
The source wraps the body in try/catch, so the function is total. -/
def parseResultadoConsulta (result : SoapResult) : List NfseResult × List String :=
  match result.consultarNfseResposta with
  | none => ([], [])
  | some resposta =>
    match resposta.listaMensagemRetorno with
    | some lm => ([], warnMensagens lm.mensagemRetorno)
    | none =>
      match resposta.listaNfse with
      | none => ([], [])
      | some ln =>
        match ln.compNfse with
        | none => ([], [])
        | some cf =>
          ((compNfseToList cf).filterMap (fun comp => comp.nfse.map toNfseResult), [])

/-- The parameters of one municipal query (`ConsultaNfseParams`). -/
structure ConsultaParams where
  cnpjPrestador : String
  inscricaoMunicipal : String
  dataInicio : String
  dataFim : String
  cnpjTomador : Option String
  numeroNfse : Option String
deriving DecidableEq

/-- Model of `consultarNfse` against a mocked SOAP endpoint `env`: send
the parameters, parse the result, return the records (warnings go to the
log). -/
def consultarNfse (env : ConsultaParams → SoapResult) (params : ConsultaParams) :
    List NfseResult :=
  (parseResultadoConsulta (env params)).1

/-- Model of `consultarNfsePorTomador`: default the period to the trailing
30 days of the clock value `hoje` (days since epoch) and delegate to
`consultarNfse` with the customer filter set. -/
def consultarNfsePorTomador (env : ConsultaParams → SoapResult)
    (cnpjPrestador inscricaoMunicipal cnpjTomador : String)
    (dataInicio dataFim : Option String) (hoje : Int) : List NfseResult :=
  consultarNfse env
    { cnpjPrestador := cnpjPrestador
      inscricaoMunicipal := inscricaoMunicipal
      cnpjTomador := some cnpjTomador
      dataInicio := jsDefault dataInicio (isoDateString (hoje - 30))
      dataFim := jsDefault dataFim (isoDateString hoje)
      numeroNfse := none }

end Recife

namespace Routes

/-!
Shallow embedding of the batch download endpoint
(`POST /api/nfse/batch-download` in `server/routes.ts`).  The object
storage is a function from artifact path to optional content; a `none`
lookup models `getObjectEntityFile` throwing, which the per-item
try/catch turns into a logged skip.
-/

/-- The invoice metadata row the endpoint reads (`nfseMetadata` columns it
uses). -/
structure NfseMeta where
  id : String
  cnpjTomador : String
  nomeTomador : Option String
  dataEmissao : Option String
  arquivoPdfPath : Option String
deriving DecidableEq

/-- One entry appended to the zip archive. -/
structure ArchiveEntry where
  name : String
  data : String
deriving DecidableEq

/-- Outcome of the endpoint: the 404 taken when no requested invoice
exists, or a finalized archive together with the ids whose artifact read
failed and was logged. -/
inductive BatchResult where
  | notFound : BatchResult
  | archive : List ArchiveEntry → List String → BatchResult
deriving DecidableEq

/-- Model of `.replace(/[^a-zA-Z0-9\s]/g, "")`: keep ASCII alphanumerics
and whitespace. -/
def isNameChar (c : Char) : Bool :=
  c.isAlpha || c.isDigit || isJsSpace c

/-- Model of `.replace(/\s+/g, "_")`: each maximal whitespace run becomes
one underscore. -/
def collapseWs : List Char → List Char
  | [] => []
  | c :: rest =>
    if isJsSpace c then
      match rest with
      | [] => ['_']
      | c2 :: rest2 =>
        if isJsSpace c2 then collapseWs (c2 :: rest2)
        else '_' :: collapseWs (c2 :: rest2)
    else c :: collapseWs rest

/-- The customer-name cleanup chain:
strip non-alphanumerics, collapse whitespace to underscores, keep the
first 30 characters. -/
def cleanName (s : String) : String :=
  (String.mk (collapseWs (s.data.filter isNameChar))).take 30

/-- The deterministic per-entry filename
`{digits-only cnpj}_{clean name}_{date}_NFS-e.pdf`. -/
def entryFilename (nfse : NfseMeta) (nowDate : String) : String :=
  stripNonDigits nfse.cnpjTomador ++ "_" ++ cleanName (jsDefault nfse.nomeTomador "Tomador") ++
    "_" ++ jsDefault nfse.dataEmissao nowDate ++ "_NFS-e.pdf"

/-- One iteration of the endpoint's `for` loop over the requested
invoices: an invoice without a stored PDF path is passed over silently; a
failing artifact read is recorded as a skip; a successful read appends an
archive entry. -/
def batchStep (store : String → Option String) (nowDate : String)
    (acc : List ArchiveEntry × List String) (nfse : NfseMeta) :
    List ArchiveEntry × List String :=
  match nfse.arquivoPdfPath with
  | none => acc
  | some path =>
    match store path with
    | some payload => (acc.1 ++ [{ name := entryFilename nfse nowDate, data := payload }], acc.2)
    | none => (acc.1, acc.2 ++ [nfse.id])

/-- Model of the batch download endpoint: an empty invoice list is
rejected before any work begins; otherwise every invoice is processed and
the archive is finalized regardless of per-item failures. -/
def batchDownload (store : String → Option String) (nowDate : String)
    (nfseList : List NfseMeta) : BatchResult :=
  if nfseList.length = 0 then BatchResult.notFound
  else
    let r := nfseList.foldl (batchStep store nowDate) ([], [])
    BatchResult.archive r.1 r.2

/-- An invoice whose stored PDF path is present and readable in the
object store. -/
def readable (store : String → Option String) (nfse : NfseMeta) : Bool :=
  match nfse.arquivoPdfPath with
  | some path => (store path).isSome
  | none => false

/-- An invoice whose stored PDF path is present but whose artifact read
fails (the skipped-with-reason case). -/
def skippedPred (store : String → Option String) (nfse : NfseMeta) : Bool :=
  match nfse.arquivoPdfPath with
  | some path => (store path).isNone
  | none => false

end Routes

/-!
Helper lemmas shared by the claim theorems.
-/

namespace Nacional

/-- A fetch past the end of the mocked page sequence parses to no
documents. -/
theorem fetchPage_of_le (pages : List DistribResponse) (i : Nat)
    (h : pages.length ≤ i) :
    fetchPage pages i = [] := by
  unfold fetchPage
  rw [List.getD_eq_default _ _ h]
  rfl

/-- The pagination loop halts (returns `some`) whenever the fuel exceeds
the number of remaining pages. -/
theorem loopPaginas_isSome (pages : List DistribResponse) (a b : String) :
    ∀ fuel i u notas, pages.length + 1 ≤ i + fuel → i ≤ pages.length →
      (loopPaginas pages a b fuel i u notas).isSome = true := by
  intro fuel
  induction fuel with
  | zero => intro i u notas h1 h2; omega
  | succ f ih =>
    intro i u notas h1 h2
    rw [loopPaginas]
    by_cases hz : (fetchPage pages i).length = 0
    · rw [if_pos hz]; rfl
    · have hi : i < pages.length := by
        rcases Nat.lt_or_ge i pages.length with hlt | hge
        · exact hlt
        · exact absurd (by rw [fetchPage_of_le pages i hge]; rfl) hz
      rw [if_neg hz]
      by_cases h50 : (fetchPage pages i).length < 50
      · rw [if_pos h50]; rfl
      · rw [if_neg h50]
        exact ih (i + 1) _ _ (by omega) (by omega)

/-- `consultarNfsesPorPeriodo` always terminates with a result on a finite
mocked page sequence. -/
theorem consultarNfsesPorPeriodo_isSome (pages : List DistribResponse)
    (c a b : String) :
    (consultarNfsesPorPeriodo pages c a b).isSome = true :=
  loopPaginas_isSome pages a b (pages.length + 1) 0 "0" [] (by omega) (by omega)

/-- Every record decoded out of a distribution response has an empty
customer tax ID field. -/
theorem parseDistribuicaoResponse_cnpjTomador (resp : DistribResponse) :
    ∀ r ∈ parseDistribuicaoResponse resp, r.cnpjTomador = "" := by
  intro r hr
  unfold parseDistribuicaoResponse at hr
  rcases hresp : resp.docZip with _ | docs
  · rw [hresp] at hr; simp at hr
  · rw [hresp] at hr
    rcases List.mem_filterMap.mp hr with ⟨doc, _, hmap⟩
    rcases Option.map_eq_some'.mp hmap with ⟨xml, _, hparse⟩
    rw [← hparse]
    rfl

/-- Every record accumulated by the pagination loop has an empty customer
tax ID field. -/
theorem loopPaginas_cnpjTomador (pages : List DistribResponse) (a b : String) :
    ∀ fuel i u notas l, (∀ r ∈ notas, r.cnpjTomador = "") →
      loopPaginas pages a b fuel i u notas = some l →
      ∀ r ∈ l, r.cnpjTomador = "" := by
  intro fuel
  induction fuel with
  | zero => intro i u notas l _ hl; simp [loopPaginas] at hl
  | succ f ih =>
    intro i u notas l hnotas hl
    rw [loopPaginas] at hl
    by_cases hz : (fetchPage pages i).length = 0
    · rw [if_pos hz, Option.some_inj] at hl
      exact hl ▸ hnotas
    · rw [if_neg hz] at hl
      have hmem : ∀ r ∈ notas ++ (fetchPage pages i).filter
          (fun nota => emRange a b nota.dataEmissao), r.cnpjTomador = "" := by
        intro r hr
        rcases List.mem_append.mp hr with h | h
        · exact hnotas r h
        · exact parseDistribuicaoResponse_cnpjTomador _ r (List.mem_of_mem_filter h)
      by_cases h50 : (fetchPage pages i).length < 50
      · rw [if_pos h50, Option.some_inj] at hl
        exact hl ▸ hmem
      · rw [if_neg h50] at hl
        exact ih _ _ _ _ hmem hl

/-- Unfolding of one loop iteration. -/
theorem loopPaginas_succ (pages : List DistribResponse) (a b : String)
    (fuel i : Nat) (u : String) (notas : List NfseNacionalResult) :
    loopPaginas pages a b (fuel + 1) i u notas =
      if (fetchPage pages i).length = 0 then some notas
      else
        if (fetchPage pages i).length < 50 then
          some (notas ++ (fetchPage pages i).filter (fun nota => emRange a b nota.dataEmissao))
        else
          loopPaginas pages a b fuel (i + 1)
            ((((fetchPage pages i).getLast?.map NfseNacionalResult.chaveAcesso).getD "").take 15)
            (notas ++ (fetchPage pages i).filter (fun nota => emRange a b nota.dataEmissao)) := by
  rw [loopPaginas]

end Nacional

open Nacional in
/-- C1: for every finite sequence of pages served by the distribution
endpoint, the `consultarNfsesPorPeriodo` pagination loop terminates with a
result; and whenever the very first page already has fewer than the fixed
threshold of 50 documents (including zero), the loop stops right there,
returning just that page's date-filtered records without fetching further
pages. -/
theorem claim_C1_pagination_terminates (p : DistribResponse)
    (rest : List DistribResponse) (cnpj dataInicio dataFim : String)
    (h : (parseDistribuicaoResponse p).length < 50) :
    (∀ pages : List DistribResponse,
      (consultarNfsesPorPeriodo pages cnpj dataInicio dataFim).isSome = true) ∧
    consultarNfsesPorPeriodo (p :: rest) cnpj dataInicio dataFim =
      some ((parseDistribuicaoResponse p).filter
        (fun nota => emRange dataInicio dataFim nota.dataEmissao)) := by
  refine ⟨fun pages => consultarNfsesPorPeriodo_isSome pages cnpj dataInicio dataFim, ?_⟩
  have hfirst : fetchPage (p :: rest) 0 = parseDistribuicaoResponse p := rfl
  show loopPaginas (p :: rest) dataInicio dataFim (rest.length + 1 + 1) 0 "0" [] = _
  rw [loopPaginas_succ, hfirst]
  by_cases hz : (parseDistribuicaoResponse p).length = 0
  · rw [if_pos hz]
    rw [List.length_eq_zero.mp hz]
    rfl
  · rw [if_neg hz, if_pos h, List.nil_append]

open Nacional in
/-- Witness for C1 at a concrete one-page sequence whose single page is
empty (below the 50-document threshold). -/
theorem claim_C1_witness :
    (∀ pages : List DistribResponse,
      (consultarNfsesPorPeriodo pages "60701190000104" "2024-01-01" "2024-12-31").isSome = true) ∧
    consultarNfsesPorPeriodo [{ docZip := some [] }] "60701190000104" "2024-01-01" "2024-12-31" =
      some ((parseDistribuicaoResponse { docZip := some [] }).filter
        (fun nota => emRange "2024-01-01" "2024-12-31" nota.dataEmissao)) :=
  claim_C1_pagination_terminates { docZip := some [] } [] "60701190000104"
    "2024-01-01" "2024-12-31" (by decide)

open Nacional in
/-- C6: the customer filter of `consultarNfsesPorTomador` compares
digits-only forms, so a record stored with customer tax ID
"12345678000199" matches a query in either punctuated or bare form. -/
theorem claim_C6_digits_only_match (nota : NfseNacionalResult)
    (h : nota.cnpjTomador = "12345678000199") :
    matchTomador nota "12.345.678/0001-99" = true ∧
    matchTomador nota "12345678000199" = true := by
  unfold matchTomador
  rw [h]
  exact ⟨by decide, by decide⟩

open Nacional in
/-- A concrete record whose stored customer tax ID is the bare digit
string. -/
def notaExemplo : NfseNacionalResult :=
  { chaveAcesso := "", numero := "", dataEmissao := "", competencia := ""
    valor := JsNumber.val 0, cnpjPrestador := "", razaoSocialPrestador := ""
    cnpjTomador := "12345678000199", razaoSocialTomador := ""
    descricaoServico := "", municipio := "", xml := [] }

open Nacional in
/-- Witness for C6 at the concrete record `notaExemplo`. -/
theorem claim_C6_witness :
    matchTomador notaExemplo "12.345.678/0001-99" = true ∧
    matchTomador notaExemplo "12345678000199" = true :=
  claim_C6_digits_only_match notaExemplo rfl

open Nacional in
/-- C9: a synthetic document built by gzip-compressing and
base64-encoding an XML payload, paired with an access key, decodes through
`parseDistribuicaoResponse` to a record whose access key equals the input
key. -/
theorem claim_C9_roundtrip (xml : XmlDoc) (k : String) :
    (parseDistribuicaoResponse
        { docZip := some [{ docZipB64 := EncodedPayload.encoded xml, chNFSe := some k }] }).map
      NfseNacionalResult.chaveAcesso = [k] := by
  have hstep : parseDistribuicaoResponse
      { docZip := some [{ docZipB64 := EncodedPayload.encoded xml, chNFSe := some k }] } =
      [parseNfseXml xml (jsDefault (some k) "")] := rfl
  rw [hstep, List.map_singleton]
  have hfield : (parseNfseXml xml (jsDefault (some k) "")).chaveAcesso =
      jsDefault (some k) "" := rfl
  rw [hfield]
  show [if k = "" then "" else k] = [k]
  by_cases hk : k = ""
  · rw [if_pos hk, hk]
  · rw [if_neg hk]

open Nacional in
/-- C10: every record the national parser produces has empty customer tax
ID and customer name fields, so `consultarNfsesPorTomador` can only ever
match when the digits-only form of the queried customer tax ID is itself
empty: for any query with at least one digit, the result is `some []`. -/
theorem claim_C10_tomador_always_empty (xml : XmlDoc) (chave : String)
    (pages : List DistribResponse) (cnpjPrestador q : String)
    (d1 d2 : Option String) (hoje : Int)
    (h : stripNonDigits q ≠ "") :
    (parseNfseXml xml chave).cnpjTomador = "" ∧
    (parseNfseXml xml chave).razaoSocialTomador = "" ∧
    consultarNfsesPorTomador pages cnpjPrestador q d1 d2 hoje = some [] := by
  refine ⟨rfl, rfl, ?_⟩
  have hrw : consultarNfsesPorTomador pages cnpjPrestador q d1 d2 hoje =
      Option.map (List.filter fun nota => matchTomador nota q)
        (consultarNfsesPorPeriodo pages cnpjPrestador
          (jsDefault d1 (isoDateString (hoje - 30))) (jsDefault d2 (isoDateString hoje))) := rfl
  obtain ⟨l, hl⟩ := Option.isSome_iff_exists.mp
    (consultarNfsesPorPeriodo_isSome pages cnpjPrestador
      (jsDefault d1 (isoDateString (hoje - 30))) (jsDefault d2 (isoDateString hoje)))
  rw [hrw, hl, Option.map_some', Option.some_inj]
  rw [List.filter_eq_nil_iff]
  intro r hr
  have hcn : r.cnpjTomador = "" :=
    loopPaginas_cnpjTomador pages _ _ _ _ _ _ l (by intro r hmem; simp at hmem) hl r hr
  intro hb
  rw [matchTomador, hcn] at hb
  have hempty : stripNonDigits "" = "" := rfl
  rw [hempty, beq_iff_eq] at hb
  exact h hb.symm

/-- On any failing parse (invalid DER, wrong secret, or incomplete bags)
the national certificate configuration reports failure and leaves the
whole service state untouched. -/
theorem configurarCertificado_fail (st : Nacional.NacState) (pfx : PfxBuffer)
    (senha : String)
    (h : pfx.derValid = false ∨ senha ≠ pfx.password ∨ bagsOk pfx.bags = false) :
    Nacional.configurarCertificado st pfx senha = (false, st) := by
  unfold Nacional.configurarCertificado
  split_ifs with h1 h2
  · rcases h with h | h | h
    · rw [h1] at h; simp at h
    · exact absurd h2 h
    · unfold bagsOk at h
      rcases hce : pfx.bags.certEntry with _ | oc
      · rfl
      · rcases hke : pfx.bags.keyEntry with _ | ok
        · rfl
        · rcases oc with _ | c
          · rfl
          · rcases ok with _ | kk
            · rfl
            · rw [hce, hke] at h; simp at h
  · rfl
  · rfl

/-- On any failing parse the municipal certificate configuration reports
failure and leaves the whole service state untouched. -/
theorem configurarCertificadoBuffer_fail (st : Recife.RecifeState) (pfx : PfxBuffer)
    (senha : String)
    (h : pfx.derValid = false ∨ senha ≠ pfx.password ∨ bagsOk pfx.bags = false) :
    Recife.configurarCertificadoBuffer st pfx senha = (false, st) := by
  unfold Recife.configurarCertificadoBuffer
  split_ifs with h1 h2
  · rcases h with h | h | h
    · rw [h1] at h; simp at h
    · exact absurd h2 h
    · unfold bagsOk at h
      rcases hce : pfx.bags.certEntry with _ | oc
      · rfl
      · rcases hke : pfx.bags.keyEntry with _ | ok
        · rfl
        · rcases oc with _ | c
          · rfl
          · rcases ok with _ | kk
            · rfl
            · rw [hce, hke] at h; simp at h
  · rfl
  · rfl

/-- C3: configuring a certificate with a wrong secret, a malformed
container, or a container missing its certificate or key bag returns a
failure value on both services, retains no partial state (the state is
unchanged), and leaves `isCertificadoConfigurado` at its prior value. -/
theorem claim_C3_cert_failure_no_partial_state (stN : Nacional.NacState)
    (stR : Recife.RecifeState) (pfx : PfxBuffer) (senha : String)
    (h : pfx.derValid = false ∨ senha ≠ pfx.password ∨ bagsOk pfx.bags = false) :
    (Nacional.configurarCertificado stN pfx senha).1 = false ∧
    (Nacional.configurarCertificado stN pfx senha).2 = stN ∧
    Nacional.isCertificadoConfigurado (Nacional.configurarCertificado stN pfx senha).2 =
      Nacional.isCertificadoConfigurado stN ∧
    (Recife.configurarCertificadoBuffer stR pfx senha).1 = false ∧
    (Recife.configurarCertificadoBuffer stR pfx senha).2 = stR ∧
    Recife.isCertificadoConfigurado (Recife.configurarCertificadoBuffer stR pfx senha).2 =
      Recife.isCertificadoConfigurado stR := by
  rw [configurarCertificado_fail stN pfx senha h, configurarCertificadoBuffer_fail stR pfx senha h]
  exact ⟨rfl, rfl, rfl, rfl, rfl, rfl⟩

/-- A syntactically valid PFX container holding a certificate and key,
unlocked by the secret "segredo-certo". -/
def pfxExemplo : PfxBuffer :=
  { derValid := true
    password := "segredo-certo"
    bags := { certEntry := some (some { pem := "CERT-PEM", subjectCN := some "EMPRESA", notAfter := "2030-01-01" })
              keyEntry := some (some { pem := "KEY-PEM" }) } }

/-- Witness for C3: the wrong secret against `pfxExemplo`, from an
already-configured national state and an unconfigured municipal state. -/
theorem claim_C3_witness :
    (Nacional.configurarCertificado
      { certPem := some "old", keyPem := some "old", httpsAgent := some { cert := "old", key := "old" } }
      pfxExemplo "segredo-errado").1 = false ∧
    (Nacional.configurarCertificado
      { certPem := some "old", keyPem := some "old", httpsAgent := some { cert := "old", key := "old" } }
      pfxExemplo "segredo-errado").2 =
      { certPem := some "old", keyPem := some "old", httpsAgent := some { cert := "old", key := "old" } } ∧
    Nacional.isCertificadoConfigurado (Nacional.configurarCertificado
      { certPem := some "old", keyPem := some "old", httpsAgent := some { cert := "old", key := "old" } }
      pfxExemplo "segredo-errado").2 =
      Nacional.isCertificadoConfigurado
        { certPem := some "old", keyPem := some "old", httpsAgent := some { cert := "old", key := "old" } } ∧
    (Recife.configurarCertificadoBuffer { certificado := none, httpsAgent := none }
      pfxExemplo "segredo-errado").1 = false ∧
    (Recife.configurarCertificadoBuffer { certificado := none, httpsAgent := none }
      pfxExemplo "segredo-errado").2 = { certificado := none, httpsAgent := none } ∧
    Recife.isCertificadoConfigurado (Recife.configurarCertificadoBuffer
      { certificado := none, httpsAgent := none } pfxExemplo "segredo-errado").2 =
      Recife.isCertificadoConfigurado
        ({ certificado := none, httpsAgent := none } : Recife.RecifeState) :=
  claim_C3_cert_failure_no_partial_state
    { certPem := some "old", keyPem := some "old", httpsAgent := some { cert := "old", key := "old" } }
    { certificado := none, httpsAgent := none } pfxExemplo "segredo-errado"
    (Or.inr (Or.inl (by decide)))

open Nacional in
/-- Witness for C10 at a concrete query containing a digit. -/
theorem claim_C10_witness :
    (parseNfseXml [] "ch").cnpjTomador = "" ∧
    (parseNfseXml [] "ch").razaoSocialTomador = "" ∧
    consultarNfsesPorTomador [] "60701190000104" "1" none none 0 = some [] :=
  claim_C10_tomador_always_empty [] "ch" [] "60701190000104" "1" none none 0 (by decide)

open Recife in
/-- C4: a municipal SOAP response whose body carries a non-empty
return-message list (and no invoice list) parses to zero records plus one
logged warning per message; `parseResultadoConsulta` is a total function,
so no exception escapes. -/
theorem claim_C4_messages_yield_empty (result : SoapResult)
    (resposta : ConsultarNfseResposta) (lm : ListaMensagemRetorno)
    (h1 : result.consultarNfseResposta = some resposta)
    (h2 : resposta.listaMensagemRetorno = some lm)
    (h3 : 0 < msgCount lm.mensagemRetorno)
    (_h4 : resposta.listaNfse = none) :
    (parseResultadoConsulta result).1 = [] ∧
    (parseResultadoConsulta result).2.length = msgCount lm.mensagemRetorno ∧
    0 < (parseResultadoConsulta result).2.length := by
  have hlen : (parseResultadoConsulta result).2.length = msgCount lm.mensagemRetorno := by
    simp only [parseResultadoConsulta, h1, h2]
    cases lm.mensagemRetorno with
    | arr ms => simp [warnMensagens, msgCount]
    | single m => rfl
    | absent => rfl
  have hnil : (parseResultadoConsulta result).1 = [] := by
    simp only [parseResultadoConsulta, h1, h2]
  exact ⟨hnil, hlen, hlen ▸ h3⟩

open Recife in
/-- A concrete SOAP result carrying only one return message. -/
def soapExemplo : SoapResult :=
  { consultarNfseResposta := some
      { listaMensagemRetorno := some
          { mensagemRetorno := MsgField.single { codigo := "E160", mensagem := "CNPJ invalido" } }
        listaNfse := none } }

open Recife in
/-- Witness for C4 at `soapExemplo`. -/
theorem claim_C4_witness :
    (parseResultadoConsulta soapExemplo).1 = [] ∧
    (parseResultadoConsulta soapExemplo).2.length =
      msgCount (MsgField.single { codigo := "E160", mensagem := "CNPJ invalido" }) ∧
    0 < (parseResultadoConsulta soapExemplo).2.length :=
  claim_C4_messages_yield_empty soapExemplo
    { listaMensagemRetorno := some
        { mensagemRetorno := MsgField.single { codigo := "E160", mensagem := "CNPJ invalido" } }
      listaNfse := none }
    { mensagemRetorno := MsgField.single { codigo := "E160", mensagem := "CNPJ invalido" } }
    rfl rfl (by decide) rfl

open Nacional in
/-- Counterexample to C5 as stated: a present but non-numeric value field
produces NaN, not 0, so the record's value is not the claimed
non-negative zero default. -/
theorem claim_C5_counterexample :
    (parseNfseXml [("vLiq", "abc")] "ch").valor = JsNumber.nan ∧
    JsNumber.nan ≠ JsNumber.val 0 :=
  ⟨by decide, by decide⟩

open Nacional Recife in
/-- C5 amended: when the monetary value field is absent, both clients
default the record's value to 0 and the numeric parse never raises (the
parsers are total functions); a present but malformed value text instead
yields NaN, per the counterexample. -/
theorem claim_C5_amended_absent_value_zero (xml : XmlDoc) (ch : String)
    (nfse : InfNfse)
    (h1 : extractTag xml "vLiq" = "") (h2 : extractTag xml "ValorServicos" = "")
    (h3 : (nfse.servico.bind Servico.valores).bind Valores.valorServicos = none) :
    (parseNfseXml xml ch).valor = JsNumber.val 0 ∧
    (toNfseResult nfse).valor = JsNumber.val 0 := by
  constructor
  · have hv : (parseNfseXml xml ch).valor =
        jsParseFloat (jsOr (extractTag xml "vLiq") (jsOr (extractTag xml "ValorServicos") "0")) := rfl
    rw [hv, h1, h2]
    decide
  · have hv : (toNfseResult nfse).valor =
        jsParseFloat (jsDefault ((nfse.servico.bind Servico.valores).bind Valores.valorServicos) "0") := rfl
    rw [hv, h3]
    decide

open Nacional Recife in
/-- Witness for the amended C5 at a document with no value tag and an
invoice node with no value chain. -/
theorem claim_C5_amended_witness :
    (parseNfseXml [("nNFSe", "42")] "ch").valor = JsNumber.val 0 ∧
    (toNfseResult { numero := "42", dataEmissao := "2024-01-02", codigoVerificacao := none,
                    servico := none, tomadorServico := none,
                    prestadorServico := none }).valor =
      JsNumber.val 0 :=
  claim_C5_amended_absent_value_zero [("nNFSe", "42")] "ch"
    { numero := "42", dataEmissao := "2024-01-02", codigoVerificacao := none,
      servico := none, tomadorServico := none, prestadorServico := none }
    (by decide) (by decide) rfl

open Nacional in
/-- Counterexample to C7 as stated: a 2xx response whose body is not valid
JSON does not abort the call — `makeRequest` resolves it as the empty
object, which parses to an empty page. -/
theorem claim_C7_counterexample :
    handleDistribBody 200 HttpBody.unparseable = Except.ok { docZip := none } ∧
    parseDistribuicaoResponse { docZip := none } = [] :=
  ⟨rfl, rfl⟩

open Nacional in
/-- C7 amended: on a success status an unparseable body is coerced to the
empty object and hence to an empty page (no error), a parseable body is
returned as-is with missing fields tolerated by defaults downstream, and a
non-2xx status is what aborts the call with an error. -/
theorem claim_C7_amended_unparseable_is_empty (status bad : Nat) (body : HttpBody)
    (r : DistribResponse) (ch : String)
    (h1 : 200 ≤ status) (h2 : status < 300) (h3 : bad < 200 ∨ 300 ≤ bad) :
    handleDistribBody status HttpBody.unparseable = Except.ok { docZip := none } ∧
    parseDistribuicaoResponse { docZip := none } = [] ∧
    handleDistribBody status (HttpBody.parseable r) = Except.ok r ∧
    handleDistribBody bad body = Except.error ("HTTP " ++ toString bad) ∧
    (parseNfseXml [] ch).numero = "" ∧
    (parseNfseXml [] ch).valor = JsNumber.val 0 := by
  refine ⟨?_, rfl, ?_, ?_, rfl, ?_⟩
  · unfold handleDistribBody
    rw [if_pos ⟨h1, h2⟩]
  · unfold handleDistribBody
    rw [if_pos ⟨h1, h2⟩]
  · unfold handleDistribBody
    rw [if_neg (by omega)]
  · show jsParseFloat (jsOr (extractTag [] "vLiq") (jsOr (extractTag [] "ValorServicos") "0")) =
      JsNumber.val 0
    decide

open Nacional in
/-- Witness for the amended C7 at status 200 (success) and 500 (failure). -/
theorem claim_C7_amended_witness :
    handleDistribBody 200 HttpBody.unparseable = Except.ok { docZip := none } ∧
    parseDistribuicaoResponse { docZip := none } = [] ∧
    handleDistribBody 200 (HttpBody.parseable { docZip := some [] }) =
      Except.ok { docZip := some [] } ∧
    handleDistribBody 500 HttpBody.unparseable = Except.error ("HTTP " ++ toString 500) ∧
    (parseNfseXml [] "ch").numero = "" ∧
    (parseNfseXml [] "ch").valor = JsNumber.val 0 :=
  claim_C7_amended_unparseable_is_empty 200 500 HttpBody.unparseable { docZip := some [] }
    "ch" (by decide) (by decide) (Or.inr (by decide))

open Nacional Recife in
/-- C8: with both dates omitted, each client queries a window whose end
date is the formatted clock value (today) and whose start date is the
formatted day exactly 30 days earlier: the national client delegates to
`consultarNfsesPorPeriodo` over that window, the municipal client sends a
`ConsultaParams` carrying it. -/
theorem claim_C8_default_window (pages : List DistribResponse) (cnpjP cnpjT : String)
    (hoje : Int) (env : ConsultaParams → SoapResult) (cp im ct : String) (hojeM : Int) :
    (∃ inicio fim : Int, fim = hoje ∧ inicio + 30 = fim ∧
      consultarNfsesPorTomador pages cnpjP cnpjT none none hoje =
        Option.map (List.filter fun nota => matchTomador nota cnpjT)
          (consultarNfsesPorPeriodo pages cnpjP (isoDateString inicio) (isoDateString fim))) ∧
    (∃ inicio fim : Int, fim = hojeM ∧ inicio + 30 = fim ∧
      consultarNfsePorTomador env cp im ct none none hojeM =
        consultarNfse env
          { cnpjPrestador := cp, inscricaoMunicipal := im,
            dataInicio := isoDateString inicio, dataFim := isoDateString fim,
            cnpjTomador := some ct, numeroNfse := none }) := by
  constructor
  · exact ⟨hoje - 30, hoje, rfl, by omega, rfl⟩
  · exact ⟨hojeM - 30, hojeM, rfl, by omega, rfl⟩

namespace Routes

/-- One loop iteration appends exactly one archive entry for a readable
invoice, exactly one skip record for a present-but-unreadable artifact,
and nothing otherwise. -/
theorem batchStep_lengths (store : String → Option String) (nowDate : String)
    (acc : List ArchiveEntry × List String) (n : NfseMeta) :
    (batchStep store nowDate acc n).1.length =
      acc.1.length + (if readable store n then 1 else 0) ∧
    (batchStep store nowDate acc n).2.length =
      acc.2.length + (if skippedPred store n then 1 else 0) := by
  unfold batchStep readable skippedPred
  rcases hp : n.arquivoPdfPath with _ | path
  · simp
  · rcases hs : store path with _ | payload
    · simp [hs]
    · simp [hs]

/-- The fold over the invoice list produces one archive entry per
readable invoice and one skip record per present-but-unreadable one. -/
theorem batchFold_lengths (store : String → Option String) (nowDate : String) :
    ∀ (l : List NfseMeta) (acc : List ArchiveEntry × List String),
      (l.foldl (batchStep store nowDate) acc).1.length =
        acc.1.length + l.countP (readable store) ∧
      (l.foldl (batchStep store nowDate) acc).2.length =
        acc.2.length + l.countP (skippedPred store) := by
  intro l
  induction l with
  | nil => intro acc; simp
  | cons n rest ih =>
    intro acc
    rw [List.foldl_cons, List.countP_cons, List.countP_cons]
    obtain ⟨e1, e2⟩ := batchStep_lengths store nowDate acc n
    obtain ⟨i1, i2⟩ := ih (batchStep store nowDate acc n)
    constructor
    · rw [i1, e1]; omega
    · rw [i2, e2]; omega

/-- When every invoice carries a stored artifact path, each one is either
readable or skipped, and the two counts partition the list. -/
theorem countP_readable_add_skipped (store : String → Option String)
    (l : List NfseMeta) (h : ∀ n ∈ l, n.arquivoPdfPath.isSome = true) :
    l.countP (readable store) + l.countP (skippedPred store) = l.length := by
  induction l with
  | nil => rfl
  | cons n rest ih =>
    rw [List.countP_cons, List.countP_cons, List.length_cons]
    have hn := h n (by simp)
    have hrest := ih (fun m hm => h m (by simp [hm]))
    rcases hp : n.arquivoPdfPath with _ | path
    · rw [hp] at hn; simp at hn
    · have hr : readable store n = (store path).isSome := by unfold readable; rw [hp]
      have hs : skippedPred store n = (store path).isNone := by unfold skippedPred; rw [hp]
      rw [hr, hs]
      rcases store path with _ | v
      · simp; omega
      · simp; omega

end Routes

open Routes in
/-- C2: for a requested batch of five invoices with stored artifact paths
of which exactly four are readable, the batch build still succeeds: it
returns a finalized archive holding exactly the four readable entries and
records exactly one skip; and an empty input list is rejected up front
with the not-found failure before any work begins. -/
theorem claim_C2_batch_partial_failure (store : String → Option String)
    (nowDate : String) (l : List NfseMeta) (h5 : l.length = 5)
    (hp : ∀ n ∈ l, n.arquivoPdfPath.isSome = true)
    (hr : l.countP (readable store) = 4) :
    (∃ entries skips, batchDownload store nowDate l = BatchResult.archive entries skips ∧
      entries.length = 4 ∧ skips.length = 1) ∧
    batchDownload store nowDate [] = BatchResult.notFound := by
  refine ⟨?_, rfl⟩
  have hne : ¬ l.length = 0 := by omega
  unfold batchDownload
  rw [if_neg hne]
  refine ⟨_, _, rfl, ?_, ?_⟩
  · have h1 := (batchFold_lengths store nowDate l ([], [])).1
    simp only [List.length_nil, Nat.zero_add] at h1
    rw [h1, hr]
  · have h2 := (batchFold_lengths store nowDate l ([], [])).2
    simp only [List.length_nil, Nat.zero_add] at h2
    have hpart := countP_readable_add_skipped store l hp
    rw [h2]
    omega

open Routes in
/-- Five requested invoices, each with a stored artifact path. -/
def lotesExemplo : List NfseMeta :=
  [ { id := "n1", cnpjTomador := "12345678000199", nomeTomador := some "Empresa Um",
      dataEmissao := some "2024-01-10", arquivoPdfPath := some "p1" },
    { id := "n2", cnpjTomador := "12345678000199", nomeTomador := some "Empresa Dois",
      dataEmissao := some "2024-01-11", arquivoPdfPath := some "p2" },
    { id := "n3", cnpjTomador := "12345678000199", nomeTomador := some "Empresa Tres",
      dataEmissao := some "2024-01-12", arquivoPdfPath := some "p3" },
    { id := "n4", cnpjTomador := "12345678000199", nomeTomador := some "Empresa Quatro",
      dataEmissao := some "2024-01-13", arquivoPdfPath := some "p4" },
    { id := "n5", cnpjTomador := "12345678000199", nomeTomador := some "Empresa Cinco",
      dataEmissao := some "2024-01-14", arquivoPdfPath := some "p5" } ]

/-- An object store in which the artifact "p3" is missing and every other
path is readable. -/
def storeExemplo : String → Option String :=
  fun p => if p = "p3" then none else some "PDF-BYTES"

open Routes in
/-- Witness for C2 at the concrete five-invoice batch with one missing
artifact. -/
theorem claim_C2_witness :
    (∃ entries skips,
      batchDownload storeExemplo "2026-10-11" lotesExemplo = BatchResult.archive entries skips ∧
      entries.length = 4 ∧ skips.length = 1) ∧
    batchDownload storeExemplo "2026-10-11" [] = BatchResult.notFound :=
  claim_C2_batch_partial_failure storeExemplo "2026-10-11" lotesExemplo rfl
    (by decide) (by decide)

end G7
